import Mathlib

/-!
# Verification of the cannelloni streaming engine and bootstrap sequencer

A shallow embedding of `src/cannelloni.c` (jhol/cannelloni).  The streaming
engine (`free_transfer`, `abort_transfers`, `prepare_out_buffer`,
`transfer_complete`, `submit_transfer`, the initial submission loop and the
event loop of `do_stream`) is translated into pure state-passing functions;
the environment (USB completion outcomes, `fwrite`/`fread` results,
`libusb_submit_transfer` results, signal deliveries) is made explicit as an
event list.  Machine integers are modelled as `Nat`/`Int` with explicit
`% 2^64` where uint64 overflow matters.  Ghost instrumentation fields
(submission log, freed-transfer log, cancellation-request log, sink-write
counters) record the calls the C code makes without altering its state
evolution.
-/

namespace Cannelloni

/-- `#define NUM_TRANSFERS (32)` -/
def NUM_TRANSFERS : Nat := 32

/-- `#define UNLIMITED (UINT64_MAX)` -/
def UNLIMITED : Nat := 2 ^ 64 - 1

/-- Modulus of the C `uint64_t` type. -/
def U64 : Nat := 2 ^ 64

/-- `uint64_t` subtraction `a -= b` with wrap-around (b < 2^64). -/
def u64sub (a b : Nat) : Nat := (a + U64 - b % U64) % U64

/-- The subset of `enum libusb_transfer_status` values relevant here. -/
inductive TransferStatus
  | completed
  | error
  | timedOut
  | cancelled
  | stall
  | noDevice
  | overflow
  deriving Repr, DecidableEq, Inhabited

/-- `struct cannelloni_state` (cannelloni.c lines 87-99), plus the explicit
environment (`srcBytes`: bytes still available on stdin for the OUT-direction
`fread`) and ghost instrumentation logs.  Transfer objects are identified by
numeric ids; the 32-entry `transfers` slot array holds `some id` for a live
pointer and `none` for `NULL`.  `submitted_transfers` is a C `int`, hence
`Int`. -/
structure CState where
  abort : Bool
  num_signals : Nat
  direction_in : Bool
  /-- `state.file != NULL` (false in `-0` discard/zero-fill mode). -/
  hasFile : Bool
  block_size : Nat
  total_bytes_left_to_transfer : Nat
  total_bytes_transferred : Nat
  transfers : List (Option Nat)
  submitted_transfers : Int
  empty_transfer_count : Nat
  /-- Environment: bytes remaining on the stdin source for `fread`. -/
  srcBytes : Nat
  /-- Ghost: next fresh transfer id handed out by `libusb_alloc_transfer`. -/
  nextTid : Nat
  /-- Ghost: every `libusb_submit_transfer` call, as (transfer id, length). -/
  submissions : List (Nat × Nat)
  /-- Ghost: every `free_transfer` call, by transfer id. -/
  freedTids : List Nat
  /-- Ghost: every `libusb_cancel_transfer` call, by transfer id. -/
  cancelRequests : List Nat
  /-- Ghost: number of `fwrite` calls made to the sink. -/
  sinkWriteAttempts : Nat
  /-- Ghost: bytes successfully written to the sink. -/
  sinkBytesWritten : Nat
  deriving Repr, DecidableEq, Inhabited

/-- The non-`NULL` transfer ids currently held in the slot array. -/
def outstanding (s : CState) : List Nat := s.transfers.filterMap id

/-- The slot-clearing loop of `free_transfer` (lines 298-303): find the first
slot holding this transfer pointer and set it to `NULL`. -/
def removeSlot : List (Option Nat) → Nat → List (Option Nat)
  | [], _ => []
  | slot :: rest, tid =>
    if slot = some tid then none :: rest else slot :: removeSlot rest tid

/-- `free_transfer` (lines 290-306): free the buffer and transfer object,
clear the transfer's slot, decrement `submitted_transfers`. -/
def free_transfer (s : CState) (tid : Nat) : CState :=
  { s with
    transfers := removeSlot s.transfers tid
    submitted_transfers := s.submitted_transfers - 1
    freedTids := s.freedTids ++ [tid] }

/-- `abort_transfers` (lines 308-316): set the abort latch and request
cancellation of every transfer still in the slot array. -/
def abort_transfers (s : CState) : CState :=
  { s with
    abort := true
    cancelRequests := s.cancelRequests ++ outstanding s }

/-- `prepare_out_buffer` (lines 318-336): with no file, report a full block
of zeros; otherwise `fread` up to `block_size` bytes and, on a short read
(EOF included), set `total_bytes_left_to_transfer` to the short count.
Returns the updated state and the byte count that becomes the transfer
length. -/
def prepare_out_buffer (s : CState) : CState × Nat :=
  if !s.hasFile then (s, s.block_size)
  else
    let num_bytes_read := min s.block_size s.srcBytes
    let s1 := { s with srcBytes := s.srcBytes - num_bytes_read }
    if num_bytes_read ≠ s1.block_size then
      ({ s1 with total_bytes_left_to_transfer := num_bytes_read }, num_bytes_read)
    else
      (s1, num_bytes_read)

/-- One USB completion outcome delivered to `transfer_complete`, together
with the environment's answers to the calls the handler makes:
`sinkWriteOk` is whether `fwrite` wrote all `actual_length` bytes, and
`submitOk` is whether the `libusb_submit_transfer` call in the handler (if
reached) succeeds. -/
structure Completion where
  tid : Nat
  status : TransferStatus
  actual_length : Nat
  sinkWriteOk : Bool
  submitOk : Bool
  deriving Repr, DecidableEq, Inhabited

/-- `transfer_complete` (lines 338-372), translated statement by statement.
Note that the short-write branch (lines 354-360) has no `return` in the
source: after `free_transfer` and `abort_transfers` it falls through to the
counter update and the resubmission of the (freed) transfer. -/
def transfer_complete (s : CState) (c : Completion) : CState :=
  if s.abort then
    free_transfer s c.tid
  else if (¬ (c.status = TransferStatus.completed) ∧
      ¬ (c.status = TransferStatus.timedOut)) ∨ c.actual_length = 0 then
    abort_transfers (free_transfer s c.tid)
  else
    let doWrite := s.direction_in && s.hasFile
    let s1 :=
      if doWrite then
        { s with
          sinkWriteAttempts := s.sinkWriteAttempts + 1
          sinkBytesWritten :=
            s.sinkBytesWritten + (if c.sinkWriteOk then c.actual_length else 0) }
      else s
    let s2 :=
      if doWrite && !c.sinkWriteOk then abort_transfers (free_transfer s1 c.tid)
      else s1
    let s3 := { s2 with
      total_bytes_transferred := (s2.total_bytes_transferred + c.actual_length) % U64 }
    let p := if s.direction_in then (s3, s.block_size) else prepare_out_buffer s3
    let s5 := { p.1 with submissions := p.1.submissions ++ [(c.tid, p.2)] }
    if c.submitOk then s5
    else abort_transfers (free_transfer s5 c.tid)

/-- `submit_transfer` (lines 374-414): allocate a buffer and transfer (the
environment is assumed to satisfy the allocations), fill it for the OUT
direction, call `libusb_submit_transfer` (`submitOk` is the environment's
answer) and, on success only, consume the budget and increment the
outstanding count.  Returns the new state and `some tid` on success,
`none` on submission failure. -/
def submit_transfer (s : CState) (submitOk : Bool) : CState × Option Nat :=
  let p := if !s.direction_in then prepare_out_buffer s else (s, s.block_size)
  let num_bytes_to_transfer := p.2
  let tid := p.1.nextTid
  let s2 := { p.1 with
    nextTid := tid + 1
    submissions := p.1.submissions ++ [(tid, num_bytes_to_transfer)] }
  if submitOk then
    ({ s2 with
        total_bytes_left_to_transfer :=
          u64sub s2.total_bytes_left_to_transfer num_bytes_to_transfer
        submitted_transfers := s2.submitted_transfers + 1 },
      some tid)
  else
    (s2, none)

/-- The initial submission loop of `do_stream` (lines 537-542):
`for (i = 0; i != NUM_TRANSFERS && total_bytes_left != 0; i++)`, storing
each new transfer in slot `i`; a failed submission aborts and breaks.
`fuel` is `NUM_TRANSFERS - i`; `ok i` is the environment's answer to the
i-th `libusb_submit_transfer`. -/
def initial_submits_loop (ok : Nat → Bool) : CState → Nat → Nat → CState
  | s, _, 0 => s
  | s, i, fuel + 1 =>
    if s.total_bytes_left_to_transfer ≠ 0 then
      match submit_transfer s (ok i) with
      | (s1, some tid) =>
          initial_submits_loop ok
            { s1 with transfers := s1.transfers.set i (some tid) } (i + 1) fuel
      | (s1, none) => abort_transfers s1
    else s

def initial_submits (ok : Nat → Bool) (s : CState) : CState :=
  initial_submits_loop ok s 0 NUM_TRANSFERS

/-- `handle_signalfd` (lines 432-446): count the delivery; the fifth
delivery calls `exit(-1)` (modelled as the `Int` exit argument), earlier
ones call `abort_transfers`. -/
def handle_signalfd (s : CState) : Sum CState Int :=
  if s.num_signals + 1 ≥ 5 then Sum.inr (-1)
  else Sum.inl (abort_transfers { s with num_signals := s.num_signals + 1 })

/-- One wake-up of the event loop delivers either a USB completion (drives
`transfer_complete`) or a termination-signal record (drives
`handle_signalfd`). -/
inductive Event
  | usb (c : Completion)
  | signal
  deriving Repr, DecidableEq, Inhabited

def step (s : CState) : Event → Sum CState Int
  | Event.usb c => Sum.inl (transfer_complete s c)
  | Event.signal => handle_signalfd s

/-- Outcome of running the `while (state.submitted_transfers != 0)` loop of
`do_stream` on a finite event list: `finished` when the count reached zero
(the loop exits and `do_stream` returns `ret = true`), `running` when the
event list is exhausted with transfers still outstanding, `forcedExit` when
`handle_signalfd` called `exit(-1)`. -/
inductive RunResult
  | running (s : CState)
  | finished (s : CState)
  | forcedExit (code : Int)
  deriving Repr, DecidableEq, Inhabited

/-- The event loop of `do_stream` (lines 547-562): before consuming each
event the loop condition `submitted_transfers != 0` is checked. -/
def runEvents : CState → List Event → RunResult
  | s, [] => if s.submitted_transfers = 0 then RunResult.finished s else RunResult.running s
  | s, e :: es =>
    if s.submitted_transfers = 0 then RunResult.finished s
    else
      match step s e with
      | Sum.inl s1 => runEvents s1 es
      | Sum.inr code => RunResult.forcedExit code

/-- The arguments of `do_stream` (line 448), plus the stdin environment. -/
structure StreamConfig where
  direction_in : Bool
  block_size : Nat
  num_bytes_limit : Nat
  disable_in_out : Bool
  srcBytes : Nat
  deriving Repr, DecidableEq, Inhabited

/-- The `struct cannelloni_state` initializer of `do_stream`
(lines 456-468). -/
def init_state (cfg : StreamConfig) : CState :=
  { abort := false
    num_signals := 0
    direction_in := cfg.direction_in
    hasFile := !cfg.disable_in_out
    block_size := cfg.block_size
    total_bytes_left_to_transfer := cfg.num_bytes_limit
    total_bytes_transferred := 0
    transfers := List.replicate NUM_TRANSFERS none
    submitted_transfers := 0
    empty_transfer_count := 0
    srcBytes := cfg.srcBytes
    nextTid := 0
    submissions := []
    freedTids := []
    cancelRequests := []
    sinkWriteAttempts := 0
    sinkBytesWritten := 0 }

/-- `do_stream` (lines 448-595) with the setup succeeding and every initial
`libusb_submit_transfer` accepted: initial submissions, then the event
loop. -/
def do_stream (cfg : StreamConfig) (events : List Event) : RunResult :=
  runEvents (initial_submits (fun _ => true) (init_state cfg)) events

/-- The state carried by a `running`/`finished` result. -/
def stateOf : RunResult → CState
  | RunResult.running s => s
  | RunResult.finished s => s
  | RunResult.forcedExit _ => default

/-- The process exit status produced by `main` (lines 1016-1017, 1025) for a
terminated run: `do_stream` sets `ret = true` whenever the streaming loop
exits, so `main` returns `EXIT_SUCCESS` (0); a fifth signal exits with the
`exit(-1)` code.  `none` when the run is not yet terminated. -/
def exit_status : RunResult → Option Int
  | RunResult.finished _ => some 0
  | RunResult.running _ => none
  | RunResult.forcedExit code => some code

/-! ## FirmwareConfig bit-packing (main, lines 818-877) -/

/-- `-2`/`-3`/`-4`: FX2 fifo buffering depth, `num_buffers ∈ {2,3,4}`. -/
inductive NumBuffers
  | two
  | three
  | four
  deriving Repr, DecidableEq, Inhabited

/-- `MHZ12`/`MHZ24`/`MHZ48`: the 8051 CPU clock selection of `-z`. -/
inductive CpuMhz
  | mhz12
  | mhz24
  | mhz48
  deriving Repr, DecidableEq, Inhabited

/-- The configuration flags of `main` that feed the 6-byte
`firmware_config` packing, with the validity invariants (`num_buffers ∈
{2,3,4}`, `cpu_mhz ∈ {12,24,48}`) enforced by construction. -/
@[ext]
structure FwFlags where
  direction_in : Bool
  use_external_ifclk : Bool
  use_48mhz_internal_clk : Bool
  enable_ifclk_output : Bool
  invert_ifclk : Bool
  run_async_bus : Bool
  use_8bit_bus : Bool
  num_buffers : NumBuffers
  cpu_mhz : CpuMhz
  enable_clkout_output : Bool
  invert_clkout : Bool
  invert_queue_full_pin : Bool
  invert_queue_empty_pin : Bool
  invert_queue_slwr_pin : Bool
  invert_queue_slrd_pin : Bool
  invert_queue_sloe_pin : Bool
  invert_queue_pktend_pin : Bool
  deriving Repr, DecidableEq, Inhabited

/-- `firmware_config[0]` (line 822). -/
def fwByte0 (f : FwFlags) : Nat := if f.direction_in then 0x12 else 0x21

/-- `firmware_config[1]` (lines 825-831). -/
def fwByte1 (f : FwFlags) : Nat :=
  (if !f.use_external_ifclk then 2 ^ 7 else 0) |||
  (if f.use_48mhz_internal_clk then 2 ^ 6 else 0) |||
  (if f.enable_ifclk_output then 2 ^ 5 else 0) |||
  (if f.invert_ifclk then 2 ^ 4 else 0) |||
  (if f.run_async_bus then 2 ^ 3 else 0) ||| 0x03

/-- `firmware_config[2]` (lines 834-849). -/
def fwByte2 (f : FwFlags) : Nat :=
  2 ^ 7 ||| (if f.direction_in then 2 ^ 6 else 0) ||| 0x20 |||
  (match f.num_buffers with
   | NumBuffers.two => 0x02
   | NumBuffers.three => 0x03
   | NumBuffers.four => 0x00)

/-- `firmware_config[3]` (lines 852-853). -/
def fwByte3 (f : FwFlags) : Nat :=
  let b := if f.direction_in then 0x0d else 0x11
  if f.use_8bit_bus then b &&& 0xFE else b

/-- `firmware_config[4]` (lines 856-869). -/
def fwByte4 (f : FwFlags) : Nat :=
  (match f.cpu_mhz with
   | CpuMhz.mhz12 => 0x00
   | CpuMhz.mhz24 => 0x08
   | CpuMhz.mhz48 => 0x10) |||
  (if f.invert_clkout then 2 ^ 2 else 0) |||
  (if f.enable_clkout_output then 2 ^ 1 else 0)

/-- `firmware_config[5]` (lines 872-877). -/
def fwByte5 (f : FwFlags) : Nat :=
  (if f.invert_queue_full_pin then 2 ^ 0 else 0) |||
  (if f.invert_queue_empty_pin then 2 ^ 1 else 0) |||
  (if f.invert_queue_slwr_pin then 2 ^ 2 else 0) |||
  (if f.invert_queue_slrd_pin then 2 ^ 3 else 0) |||
  (if f.invert_queue_sloe_pin then 2 ^ 4 else 0) |||
  (if f.invert_queue_pktend_pin then 2 ^ 5 else 0)

/-- The 6-byte `firmware_config` block (line 103, filled at lines
818-877). -/
def fwBytes (f : FwFlags) : List Nat :=
  [fwByte0 f, fwByte1 f, fwByte2 f, fwByte3 f, fwByte4 f, fwByte5 f]

/-- Decoder for the 6-byte block: reads each flag back out of its bit
position. -/
def fwDecodeBytes (b0 b1 b2 b3 b4 b5 : Nat) : FwFlags :=
  { direction_in := b0 == 0x12
    use_external_ifclk := !(b1.testBit 7)
    use_48mhz_internal_clk := b1.testBit 6
    enable_ifclk_output := b1.testBit 5
    invert_ifclk := b1.testBit 4
    run_async_bus := b1.testBit 3
    use_8bit_bus := !(b3.testBit 0)
    num_buffers :=
      if b2 % 4 = 2 then NumBuffers.two
      else if b2 % 4 = 3 then NumBuffers.three
      else NumBuffers.four
    cpu_mhz :=
      if b4.testBit 4 then CpuMhz.mhz48
      else if b4.testBit 3 then CpuMhz.mhz24
      else CpuMhz.mhz12
    enable_clkout_output := b4.testBit 1
    invert_clkout := b4.testBit 2
    invert_queue_full_pin := b5.testBit 0
    invert_queue_empty_pin := b5.testBit 1
    invert_queue_slwr_pin := b5.testBit 2
    invert_queue_slrd_pin := b5.testBit 3
    invert_queue_sloe_pin := b5.testBit 4
    invert_queue_pktend_pin := b5.testBit 5 }

def fwDecode : List Nat → FwFlags
  | [b0, b1, b2, b3, b4, b5] => fwDecodeBytes b0 b1 b2 b3 b4 b5
  | _ => default

/-! ## Bootstrap sequencer (main lines 974-990, pre_reset_callback lines
243-257, ezusb_load_ram modelled from the spec) -/

/-- `const int FirmwareConfigAddr = 0x1003;` (line 106). -/
def FirmwareConfigAddr : Nat := 0x1003

/-- A control-transfer operation issued to the device during bootstrap. -/
inductive DevOp
  | ramWrite (addr : Nat) (data : List Nat)
  | configWrite (addr : Nat) (data : List Nat)
  | resetWrite (stage : Nat)
  deriving Repr, DecidableEq, Inhabited

/-- One (RAM address, payload) record produced by the firmware image
decoder. -/
structure FwRecord where
  addr : Nat
  data : List Nat
  deriving Repr, DecidableEq, Inhabited

/-- `pre_reset_callback` (lines 243-257): one `ezusb_write` of the 6
`firmware_config` bytes to `FirmwareConfigAddr`. -/
def pre_reset_ops (f : FwFlags) : List DevOp :=
  [DevOp.configWrite FirmwareConfigAddr (fwBytes f)]

/-- Modelled from the spec: `ezusb_load_ram` lives in `ezusb.c`, which is
not under `src/`.  Per spec §4.1 and §6, it writes every (address, bytes)
record of the image via control-transfer writes and, immediately before the
final reset-triggering write of the stage, invokes the configuration-write
callback when one is attached. -/
def ezusb_load_ram (image : List FwRecord) (stage : Nat)
    (cb : Option (List DevOp)) : List DevOp :=
  image.map (fun r => DevOp.ramWrite r.addr r.data) ++ cb.getD [] ++
    [DevOp.resetWrite stage]

/-- The firmware-programming dispatch of `main` (lines 974-990): a
single-stage load passes `pre_reset_callback` with the primary image at
stage 0; a two-stage load passes it with the loader at stage 0 and `NULL`
with the primary image at stage 1. -/
def bootstrap (f : FwFlags) (primary : List FwRecord)
    (loader : Option (List FwRecord)) : List DevOp :=
  match loader with
  | none => ezusb_load_ram primary 0 (some (pre_reset_ops f))
  | some ldr =>
      ezusb_load_ram ldr 0 (some (pre_reset_ops f)) ++
        ezusb_load_ram primary 1 none

/-- Number of configuration-register writes in a device-operation trace. -/
def countConfigWrites : List DevOp → Nat
  | [] => 0
  | DevOp.configWrite _ _ :: rest => countConfigWrites rest + 1
  | _ :: rest => countConfigWrites rest

/-- Whether the streaming loop has exited normally (`ret = true`). -/
def isFinished : RunResult → Bool
  | RunResult.finished _ => true
  | _ => false

/-! ## Concrete streaming runs used by the counterexample/bug theorems -/

/-- IN direction, discard mode (`-0`), block size 512, byte budget 1024
(divisible by the block size). -/
def c1_cfg : StreamConfig := ⟨true, 512, 1024, true, 0⟩

/-- The device fails the first transfer (status "error", 0 bytes); the
second transfer then completes as cancelled. -/
def c1_events : List Event :=
  [Event.usb ⟨0, TransferStatus.error, 0, true, true⟩,
   Event.usb ⟨1, TransferStatus.cancelled, 0, true, true⟩]

/-- IN direction, discard mode, block size 512, byte budget 1024. -/
def c2_cfg : StreamConfig := ⟨true, 512, 1024, true, 0⟩

/-- Three full-block completions, each resubmitting successfully. -/
def c2_events : List Event :=
  [Event.usb ⟨0, TransferStatus.completed, 512, true, true⟩,
   Event.usb ⟨1, TransferStatus.completed, 512, true, true⟩,
   Event.usb ⟨0, TransferStatus.completed, 512, true, true⟩]

/-- IN direction with stdout attached, block size 512, byte budget 1024. -/
def c3_cfg : StreamConfig := ⟨true, 512, 1024, false, 0⟩

/-- A completed 512-byte transfer whose `fwrite` to stdout is short; the
subsequent `libusb_submit_transfer` call succeeds. -/
def c3_events : List Event :=
  [Event.usb ⟨0, TransferStatus.completed, 512, false, true⟩]

/-- OUT direction with stdin attached, block size 512, byte budget 1024,
but only 100 bytes available on stdin. -/
def c4_cfg : StreamConfig := ⟨false, 512, 1024, false, 100⟩

/-- The short 100-byte transfer completes in full; the transfer the handler
then resubmits completes with 0 bytes. -/
def c4_events : List Event :=
  [Event.usb ⟨0, TransferStatus.completed, 100, true, true⟩,
   Event.usb ⟨0, TransferStatus.completed, 0, true, true⟩]

/-- IN direction with stdout attached, block size 512, byte budget 1024. -/
def c10_cfg : StreamConfig := ⟨true, 512, 1024, false, 0⟩

/-- A completed 512-byte transfer whose `fwrite` to stdout is short; the
subsequent `libusb_submit_transfer` call fails. -/
def c10_events : List Event :=
  [Event.usb ⟨0, TransferStatus.completed, 512, false, false⟩]

/-! ## Helper lemmas -/

theorem removeSlot_filterMap_length {slots : List (Option Nat)} {tid : Nat}
    (h : some tid ∈ slots) :
    ((removeSlot slots tid).filterMap id).length + 1 = (slots.filterMap id).length := by
  induction slots with
  | nil => simp at h
  | cons slot rest ih =>
    by_cases hs : slot = some tid
    · subst hs
      simp [removeSlot]
    · have hmem : some tid ∈ rest := by
        rcases List.mem_cons.mp h with h1 | h2
        · exact absurd h1.symm hs
        · exact h2
      cases slot with
      | none => simpa [removeSlot, hs] using ih hmem
      | some a => simpa [removeSlot, hs] using ih hmem

theorem mem_removeSlot {slots : List (Option Nat)} {tid t : Nat}
    (hne : t ≠ tid) (h : some t ∈ slots) :
    some t ∈ removeSlot slots tid := by
  induction slots with
  | nil => simp at h
  | cons slot rest ih =>
    by_cases hs : slot = some tid
    · subst hs
      have hmem : some t ∈ rest := by
        rcases List.mem_cons.mp h with h1 | h2
        · exact absurd (Option.some.inj h1) hne
        · exact h2
      simp [removeSlot, hmem]
    · rcases List.mem_cons.mp h with h1 | h2
      · simp [removeSlot, hs, ← h1, hne]
      · simp [removeSlot, hs, ih h2]

/-- In the abort-latched state, `transfer_complete` reduces to
`free_transfer` (lines 342-345). -/
theorem transfer_complete_of_abort {s : CState} (c : Completion)
    (hab : s.abort = true) :
    transfer_complete s c = free_transfer s c.tid := by
  simp [transfer_complete, hab]

/-- On a fatal outcome (status neither completed nor timed out, or zero
bytes) with the latch clear, `transfer_complete` reduces to
`free_transfer` followed by `abort_transfers` (lines 347-352). -/
theorem transfer_complete_of_fatal {s : CState} (c : Completion)
    (hab : s.abort = false)
    (hfatal : (¬ (c.status = TransferStatus.completed) ∧
      ¬ (c.status = TransferStatus.timedOut)) ∨ c.actual_length = 0) :
    transfer_complete s c = abort_transfers (free_transfer s c.tid) := by
  rw [transfer_complete, if_neg (by simp [hab]), if_pos hfatal]

theorem countConfigWrites_append (l1 l2 : List DevOp) :
    countConfigWrites (l1 ++ l2) = countConfigWrites l1 + countConfigWrites l2 := by
  induction l1 with
  | nil => simp [countConfigWrites]
  | cons op rest ih => cases op <;> simp [countConfigWrites, ih] <;> omega

theorem countConfigWrites_map_ram (rs : List FwRecord) :
    countConfigWrites (rs.map fun r => DevOp.ramWrite r.addr r.data) = 0 := by
  induction rs with
  | nil => rfl
  | cons r rest ih => simpa [countConfigWrites] using ih

/-! ## FirmwareConfig round-trip, component by component -/

theorem fwRT_direction (dir : Bool) :
    (fwDecode (fwBytes ⟨dir, false, false, false, false, false, false, NumBuffers.four,
      CpuMhz.mhz48, false, false, false, false, false, false, false, false⟩)).direction_in
      = dir := by
  cases dir <;> decide

theorem fwRT_external_ifclk (ext m48 ifo invi asyn : Bool) :
    (fwDecode (fwBytes ⟨false, ext, m48, ifo, invi, asyn, false, NumBuffers.four,
      CpuMhz.mhz48, false, false, false, false, false, false, false, false⟩)).use_external_ifclk
      = ext := by
  cases ext <;> cases m48 <;> cases ifo <;> cases invi <;> cases asyn <;> decide

theorem fwRT_48mhz (ext m48 ifo invi asyn : Bool) :
    (fwDecode (fwBytes ⟨false, ext, m48, ifo, invi, asyn, false, NumBuffers.four,
      CpuMhz.mhz48, false, false, false, false, false, false, false, false⟩)).use_48mhz_internal_clk
      = m48 := by
  cases ext <;> cases m48 <;> cases ifo <;> cases invi <;> cases asyn <;> decide

theorem fwRT_ifclk_output (ext m48 ifo invi asyn : Bool) :
    (fwDecode (fwBytes ⟨false, ext, m48, ifo, invi, asyn, false, NumBuffers.four,
      CpuMhz.mhz48, false, false, false, false, false, false, false, false⟩)).enable_ifclk_output
      = ifo := by
  cases ext <;> cases m48 <;> cases ifo <;> cases invi <;> cases asyn <;> decide

theorem fwRT_invert_ifclk (ext m48 ifo invi asyn : Bool) :
    (fwDecode (fwBytes ⟨false, ext, m48, ifo, invi, asyn, false, NumBuffers.four,
      CpuMhz.mhz48, false, false, false, false, false, false, false, false⟩)).invert_ifclk
      = invi := by
  cases ext <;> cases m48 <;> cases ifo <;> cases invi <;> cases asyn <;> decide

theorem fwRT_async_bus (ext m48 ifo invi asyn : Bool) :
    (fwDecode (fwBytes ⟨false, ext, m48, ifo, invi, asyn, false, NumBuffers.four,
      CpuMhz.mhz48, false, false, false, false, false, false, false, false⟩)).run_async_bus
      = asyn := by
  cases ext <;> cases m48 <;> cases ifo <;> cases invi <;> cases asyn <;> decide

theorem fwRT_8bit_bus (dir u8 : Bool) :
    (fwDecode (fwBytes ⟨dir, false, false, false, false, false, u8, NumBuffers.four,
      CpuMhz.mhz48, false, false, false, false, false, false, false, false⟩)).use_8bit_bus
      = u8 := by
  cases dir <;> cases u8 <;> decide

theorem fwRT_num_buffers (dir : Bool) (nb : NumBuffers) :
    (fwDecode (fwBytes ⟨dir, false, false, false, false, false, false, nb,
      CpuMhz.mhz48, false, false, false, false, false, false, false, false⟩)).num_buffers
      = nb := by
  cases dir <;> cases nb <;> decide

theorem fwRT_cpu_mhz (cpu : CpuMhz) (cko invc : Bool) :
    (fwDecode (fwBytes ⟨false, false, false, false, false, false, false, NumBuffers.four,
      cpu, cko, invc, false, false, false, false, false, false⟩)).cpu_mhz
      = cpu := by
  cases cpu <;> cases cko <;> cases invc <;> decide

theorem fwRT_clkout_output (cpu : CpuMhz) (cko invc : Bool) :
    (fwDecode (fwBytes ⟨false, false, false, false, false, false, false, NumBuffers.four,
      cpu, cko, invc, false, false, false, false, false, false⟩)).enable_clkout_output
      = cko := by
  cases cpu <;> cases cko <;> cases invc <;> decide

theorem fwRT_invert_clkout (cpu : CpuMhz) (cko invc : Bool) :
    (fwDecode (fwBytes ⟨false, false, false, false, false, false, false, NumBuffers.four,
      cpu, cko, invc, false, false, false, false, false, false⟩)).invert_clkout
      = invc := by
  cases cpu <;> cases cko <;> cases invc <;> decide

theorem fwRT_full_pin (q1 q2 q3 q4 q5 q6 : Bool) :
    (fwDecode (fwBytes ⟨false, false, false, false, false, false, false, NumBuffers.four,
      CpuMhz.mhz48, false, false, q1, q2, q3, q4, q5, q6⟩)).invert_queue_full_pin
      = q1 := by
  cases q1 <;> cases q2 <;> cases q3 <;> cases q4 <;> cases q5 <;> cases q6 <;> decide

theorem fwRT_empty_pin (q1 q2 q3 q4 q5 q6 : Bool) :
    (fwDecode (fwBytes ⟨false, false, false, false, false, false, false, NumBuffers.four,
      CpuMhz.mhz48, false, false, q1, q2, q3, q4, q5, q6⟩)).invert_queue_empty_pin
      = q2 := by
  cases q1 <;> cases q2 <;> cases q3 <;> cases q4 <;> cases q5 <;> cases q6 <;> decide

theorem fwRT_slwr_pin (q1 q2 q3 q4 q5 q6 : Bool) :
    (fwDecode (fwBytes ⟨false, false, false, false, false, false, false, NumBuffers.four,
      CpuMhz.mhz48, false, false, q1, q2, q3, q4, q5, q6⟩)).invert_queue_slwr_pin
      = q3 := by
  cases q1 <;> cases q2 <;> cases q3 <;> cases q4 <;> cases q5 <;> cases q6 <;> decide

theorem fwRT_slrd_pin (q1 q2 q3 q4 q5 q6 : Bool) :
    (fwDecode (fwBytes ⟨false, false, false, false, false, false, false, NumBuffers.four,
      CpuMhz.mhz48, false, false, q1, q2, q3, q4, q5, q6⟩)).invert_queue_slrd_pin
      = q4 := by
  cases q1 <;> cases q2 <;> cases q3 <;> cases q4 <;> cases q5 <;> cases q6 <;> decide

theorem fwRT_sloe_pin (q1 q2 q3 q4 q5 q6 : Bool) :
    (fwDecode (fwBytes ⟨false, false, false, false, false, false, false, NumBuffers.four,
      CpuMhz.mhz48, false, false, q1, q2, q3, q4, q5, q6⟩)).invert_queue_sloe_pin
      = q5 := by
  cases q1 <;> cases q2 <;> cases q3 <;> cases q4 <;> cases q5 <;> cases q6 <;> decide

theorem fwRT_pktend_pin (q1 q2 q3 q4 q5 q6 : Bool) :
    (fwDecode (fwBytes ⟨false, false, false, false, false, false, false, NumBuffers.four,
      CpuMhz.mhz48, false, false, q1, q2, q3, q4, q5, q6⟩)).invert_queue_pktend_pin
      = q6 := by
  cases q1 <;> cases q2 <;> cases q3 <;> cases q4 <;> cases q5 <;> cases q6 <;> decide

/-- Decoding the 6-byte block recovers every flag. -/
theorem fwDecode_fwBytes (f : FwFlags) : fwDecode (fwBytes f) = f := by
  obtain ⟨dir, ext, m48, ifo, invi, asyn, u8, nb, cpu, cko, invc, q1, q2, q3, q4, q5, q6⟩ := f
  apply FwFlags.ext
  · exact fwRT_direction dir
  · exact fwRT_external_ifclk ext m48 ifo invi asyn
  · exact fwRT_48mhz ext m48 ifo invi asyn
  · exact fwRT_ifclk_output ext m48 ifo invi asyn
  · exact fwRT_invert_ifclk ext m48 ifo invi asyn
  · exact fwRT_async_bus ext m48 ifo invi asyn
  · exact fwRT_8bit_bus dir u8
  · exact fwRT_num_buffers dir nb
  · exact fwRT_cpu_mhz cpu cko invc
  · exact fwRT_clkout_output cpu cko invc
  · exact fwRT_invert_clkout cpu cko invc
  · exact fwRT_full_pin q1 q2 q3 q4 q5 q6
  · exact fwRT_empty_pin q1 q2 q3 q4 q5 q6
  · exact fwRT_slwr_pin q1 q2 q3 q4 q5 q6
  · exact fwRT_slrd_pin q1 q2 q3 q4 q5 q6
  · exact fwRT_sloe_pin q1 q2 q3 q4 q5 q6
  · exact fwRT_pktend_pin q1 q2 q3 q4 q5 q6

/-! ## Claim theorems -/

/-- C1, counterexample: the claim "the process exits with a non-zero
status; exit status 0 is returned only on success" is false on the code.
In the run `c1_cfg`/`c1_events` (budget 1024, block 512, two initial
transfers), the first transfer completes fatally with status "error" and
`actual_length` 0: `abort_transfers` fires and the transfer is not
resubmitted (the submission log keeps only the two initial submissions),
the pool drains, yet `do_stream` returns `ret = true` and the process
exit status is 0. -/
theorem C1_counterexample :
    c1_events = [Event.usb ⟨0, TransferStatus.error, 0, true, true⟩,
      Event.usb ⟨1, TransferStatus.cancelled, 0, true, true⟩] ∧
    isFinished (do_stream c1_cfg c1_events) = true ∧
    (stateOf (do_stream c1_cfg c1_events)).abort = true ∧
    (stateOf (do_stream c1_cfg c1_events)).submissions = [(0, 512), (1, 512)] ∧
    (stateOf (do_stream c1_cfg c1_events)).submitted_transfers = 0 ∧
    exit_status (do_stream c1_cfg c1_events) = some 0 := by
  decide

/-- C1, amended: if a transfer completes fatally while the latch is clear,
`abort_transfers` is invoked and that transfer is not resubmitted; however
the process exit status is 0 whenever the streaming loop exits, because
`do_stream` returns `ret = true` regardless of the abort latch.  Non-zero
exit arises only from failures before streaming or the five-signal forced
exit. -/
theorem C1_amended_exit_success (s : CState) (c : Completion)
    (hab : s.abort = false)
    (hfatal : (¬ (c.status = TransferStatus.completed) ∧
      ¬ (c.status = TransferStatus.timedOut)) ∨ c.actual_length = 0) :
    (transfer_complete s c).abort = true ∧
    (transfer_complete s c).submissions = s.submissions ∧
    ∀ (cfg : StreamConfig) (events : List Event) (s1 : CState),
      do_stream cfg events = RunResult.finished s1 →
        exit_status (do_stream cfg events) = some 0 := by
  refine ⟨?_, ?_, ?_⟩
  · rw [transfer_complete_of_fatal c hab hfatal]
    simp [abort_transfers, free_transfer]
  · rw [transfer_complete_of_fatal c hab hfatal]
    simp [abort_transfers, free_transfer, outstanding]
  · intro cfg events s1 h
    rw [h]
    rfl

/-- Witness for C1's amended theorem at a concrete fatal completion. -/
theorem C1_amended_exit_success_witness :
    ((init_state c1_cfg).abort = false) ∧
    ((transfer_complete (init_state c1_cfg) ⟨0, TransferStatus.error, 0, true, true⟩).abort = true ∧
      (transfer_complete (init_state c1_cfg) ⟨0, TransferStatus.error, 0, true, true⟩).submissions
        = (init_state c1_cfg).submissions ∧
      ∀ (cfg : StreamConfig) (events : List Event) (s1 : CState),
        do_stream cfg events = RunResult.finished s1 →
          exit_status (do_stream cfg events) = some 0) :=
  ⟨by decide,
    C1_amended_exit_success (init_state c1_cfg) ⟨0, TransferStatus.error, 0, true, true⟩
      (by decide) (by decide)⟩

/-- C2: the budget invariant is violated by the code.  In `c2_cfg` the
budget B = 1024 is divisible by the block size S = 512; the two initial
submissions drive `total_bytes_left_to_transfer` to exactly 0, yet the
three subsequent completions each resubmit (`transfer_complete` never
checks or consumes the budget), so three more submissions occur after the
budget reached zero and the sum of `actual_length` over completed
transfers grows to 1536 > 1024 = min(B, available source bytes), with the
stream still running. -/
theorem C2_budget_not_enforced :
    c2_cfg.num_bytes_limit = 1024 ∧ c2_cfg.block_size = 512 ∧ 1024 % 512 = 0 ∧
    (initial_submits (fun _ => true) (init_state c2_cfg)).submissions
      = [(0, 512), (1, 512)] ∧
    (initial_submits (fun _ => true) (init_state c2_cfg)).total_bytes_left_to_transfer = 0 ∧
    (stateOf (do_stream c2_cfg c2_events)).total_bytes_left_to_transfer = 0 ∧
    (stateOf (do_stream c2_cfg c2_events)).submissions
      = [(0, 512), (1, 512), (0, 512), (1, 512), (0, 512)] ∧
    (stateOf (do_stream c2_cfg c2_events)).total_bytes_transferred = 1536 ∧
    (stateOf (do_stream c2_cfg c2_events)).abort = false := by
  decide

/-- C3: on a short sink write the source frees the transfer and triggers
`abort_transfers`, but — lacking a `return` — falls through and calls
`libusb_submit_transfer` on the freed transfer: the submission log gains
`(0, 512)` after transfer 0 was freed and the latch set, contradicting
"that transfer is never resubmitted (no further submissions occur once the
abort latch is set)". -/
theorem C3_short_write_resubmits_freed_transfer :
    c3_events = [Event.usb ⟨0, TransferStatus.completed, 512, false, true⟩] ∧
    (stateOf (do_stream c3_cfg c3_events)).abort = true ∧
    (stateOf (do_stream c3_cfg c3_events)).freedTids = [0] ∧
    (stateOf (do_stream c3_cfg c3_events)).submissions
      = [(0, 512), (1, 512), (0, 512)] ∧
    (stateOf (do_stream c3_cfg c3_events)).total_bytes_transferred = 512 := by
  decide

/-- C4: with a 100-byte source and block size 512, the fill step does set
the transfer length and the remaining budget to the short count (one
100-byte initial submission, budget 0), but the pool does not stop there:
the completion handler refills (reading 0 at EOF) and resubmits the same
transfer with length 0, and that zero-length completion takes the fatal
branch (`free_transfer` + `abort_transfers`), so the run ends with two
submissions and the abort latch set rather than "exactly one short final
transfer ... without error". -/
theorem C4_eof_extra_zero_length_submission :
    c4_cfg.srcBytes = 100 ∧ c4_cfg.num_bytes_limit = 1024 ∧
    (initial_submits (fun _ => true) (init_state c4_cfg)).submissions = [(0, 100)] ∧
    (initial_submits (fun _ => true) (init_state c4_cfg)).total_bytes_left_to_transfer = 0 ∧
    isFinished (do_stream c4_cfg c4_events) = true ∧
    (stateOf (do_stream c4_cfg c4_events)).submissions = [(0, 100), (0, 0)] ∧
    (stateOf (do_stream c4_cfg c4_events)).abort = true ∧
    (stateOf (do_stream c4_cfg c4_events)).submitted_transfers = 0 := by
  decide

/-- C7: the 6-byte FirmwareConfig packing is a total function of the
flags, and decoding recovers every flag exactly, hence the packing is
injective. -/
theorem C7_config_packing_lossless :
    (∀ f : FwFlags, (fwBytes f).length = 6) ∧
    (∀ f : FwFlags, fwDecode (fwBytes f) = f) ∧
    Function.Injective fwBytes :=
  ⟨fun _ => rfl, fwDecode_fwBytes,
    (show Function.LeftInverse fwDecode fwBytes from fwDecode_fwBytes).injective⟩

/-- C8: in every bootstrap run (single- or two-stage) the 6-byte
FirmwareConfig is written exactly once, to RAM address 0x1003, immediately
before the reset-triggering write of stage 0 — the stage that will
execute: the primary image in a single-stage load, the loader in a
two-stage load (whose stage-1 primary upload carries no configuration
callback, so no configuration write appears after the stage-0 reset). -/
theorem C8_config_write_once_before_reset (f : FwFlags) (primary : List FwRecord)
    (loader : Option (List FwRecord)) :
    FirmwareConfigAddr = 0x1003 ∧
    countConfigWrites (bootstrap f primary loader) = 1 ∧
    ∃ pre post,
      bootstrap f primary loader =
        pre ++ DevOp.configWrite FirmwareConfigAddr (fwBytes f) ::
          DevOp.resetWrite 0 :: post ∧
      countConfigWrites pre = 0 ∧ countConfigWrites post = 0 := by
  cases loader with
  | none =>
    refine ⟨rfl, ?_, primary.map (fun r => DevOp.ramWrite r.addr r.data), [], ?_, ?_, rfl⟩
    · simp [bootstrap, ezusb_load_ram, pre_reset_ops, countConfigWrites_append,
        countConfigWrites_map_ram, countConfigWrites]
    · simp [bootstrap, ezusb_load_ram, pre_reset_ops]
    · exact countConfigWrites_map_ram primary
  | some ldr =>
    refine ⟨rfl, ?_, ldr.map (fun r => DevOp.ramWrite r.addr r.data),
      (primary.map (fun r => DevOp.ramWrite r.addr r.data)) ++ [DevOp.resetWrite 1],
      ?_, ?_, ?_⟩
    · simp [bootstrap, ezusb_load_ram, pre_reset_ops, countConfigWrites_append,
        countConfigWrites_map_ram, countConfigWrites]
    · simp [bootstrap, ezusb_load_ram, pre_reset_ops]
    · exact countConfigWrites_map_ram ldr
    · simp [countConfigWrites_append, countConfigWrites_map_ram, countConfigWrites]

/-- C5: after the abort latch is set with K transfers outstanding, each of
the K completion callbacks (whatever its status) frees its transfer and
decrements the count without resubmitting; the pool converges to zero
outstanding transfers, the submission log unchanged, every freed id
logged. -/
theorem C5_abort_latch_drain :
    ∀ (cs : List Completion) (s : CState),
      s.abort = true →
      (cs.map Completion.tid).Nodup →
      (∀ c ∈ cs, some c.tid ∈ s.transfers) →
      cs.length = (outstanding s).length →
      s.submitted_transfers = ((outstanding s).length : Int) →
      ∃ s1, runEvents s (cs.map Event.usb) = RunResult.finished s1 ∧
        s1.submitted_transfers = 0 ∧ outstanding s1 = [] ∧
        s1.submissions = s.submissions ∧ s1.abort = true ∧
        s1.freedTids = s.freedTids ++ cs.map Completion.tid := by
  intro cs
  induction cs with
  | nil =>
    intro s hab _ _ hlen hcnt
    have h0 : (outstanding s).length = 0 := by simpa using hlen.symm
    refine ⟨s, ?_, ?_, ?_, rfl, hab, by simp⟩
    · simp [runEvents, hcnt, h0]
    · rw [hcnt, h0]
      rfl
    · exact List.length_eq_zero.mp h0
  | cons c cs ih =>
    intro s hab hnd hmem hlen hcnt
    have hmemc : some c.tid ∈ s.transfers := hmem c (List.mem_cons_self c cs)
    have hlen2 : (outstanding s).length = cs.length + 1 := by simpa using hlen.symm
    have hne : ¬ (s.submitted_transfers = 0) := by
      rw [hcnt, hlen2]
      intro h
      omega
    have hstep : runEvents s ((c :: cs).map Event.usb) =
        runEvents (free_transfer s c.tid) (cs.map Event.usb) := by
      rw [List.map_cons]
      rw [show runEvents s (Event.usb c :: cs.map Event.usb) =
        runEvents (transfer_complete s c) (cs.map Event.usb) from by
          simp [runEvents, step, hne]]
      rw [transfer_complete_of_abort c hab]
    have habs1 : (free_transfer s c.tid).abort = true := by
      simpa [free_transfer] using hab
    have hnd1 : (cs.map Completion.tid).Nodup := (List.nodup_cons.mp hnd).2
    have hnotin : c.tid ∉ cs.map Completion.tid := (List.nodup_cons.mp hnd).1
    have hmem1 : ∀ c2 ∈ cs, some c2.tid ∈ (free_transfer s c.tid).transfers := by
      intro c2 hc2
      have hne2 : c2.tid ≠ c.tid := by
        intro he
        exact hnotin (he ▸ List.mem_map_of_mem Completion.tid hc2)
      exact mem_removeSlot hne2 (hmem c2 (List.mem_cons_of_mem c hc2))
    have hrem := removeSlot_filterMap_length hmemc
    have hout1 : (outstanding (free_transfer s c.tid)).length = cs.length := by
      simp only [free_transfer, outstanding] at hrem ⊢
      simp only [outstanding] at hlen2
      omega
    have hcnt1 : (free_transfer s c.tid).submitted_transfers =
        ((outstanding (free_transfer s c.tid)).length : Int) := by
      rw [hout1]
      have hsub1 : (free_transfer s c.tid).submitted_transfers =
          s.submitted_transfers - 1 := rfl
      rw [hsub1, hcnt, hlen2]
      push_cast
      omega
    obtain ⟨s2, hrun, hc0, hout0, hsub, hab2, hfreed⟩ :=
      ih (free_transfer s c.tid) habs1 hnd1 hmem1 hout1.symm hcnt1
    refine ⟨s2, ?_, hc0, hout0, ?_, hab2, ?_⟩
    · rw [hstep]
      exact hrun
    · rw [hsub]
      simp [free_transfer]
    · rw [hfreed]
      simp [free_transfer]

/-- Witness pool state: a mid-stream state with two outstanding transfers
in the first two of 32 slots. -/
def wPool : CState :=
  { abort := false
    num_signals := 0
    direction_in := true
    hasFile := false
    block_size := 512
    total_bytes_left_to_transfer := 0
    total_bytes_transferred := 1024
    transfers := some 0 :: some 1 :: List.replicate 30 none
    submitted_transfers := 2
    empty_transfer_count := 0
    srcBytes := 0
    nextTid := 2
    submissions := [(0, 512), (1, 512)]
    freedTids := []
    cancelRequests := []
    sinkWriteAttempts := 0
    sinkBytesWritten := 0 }

/-- The same pool state with the abort latch set. -/
def wAbortPool : CState := { wPool with abort := true }

/-- The two cancelled completions delivered after the latch is set. -/
def w5cs : List Completion :=
  [⟨0, TransferStatus.cancelled, 0, true, true⟩,
   ⟨1, TransferStatus.cancelled, 0, true, true⟩]

/-- Witness for C5 at a concrete aborting pool with K = 2. -/
theorem C5_abort_latch_drain_witness :
    ∃ s1, runEvents wAbortPool (w5cs.map Event.usb) = RunResult.finished s1 ∧
      s1.submitted_transfers = 0 ∧ outstanding s1 = [] ∧
      s1.submissions = wAbortPool.submissions ∧ s1.abort = true ∧
      s1.freedTids = wAbortPool.freedTids ++ w5cs.map Completion.tid :=
  C5_abort_latch_drain w5cs wAbortPool (by decide) (by decide) (by decide)
    (by decide) (by decide)

/-- C6: with the latch clear, a completion whose status is neither
"completed" nor "timed out", or which transferred zero bytes, makes the
handler free the transfer and trigger `abort_transfers`, with no sink
write, no byte-counter update, and no resubmission. -/
theorem C6_fatal_completion_aborts (s : CState) (c : Completion)
    (hab : s.abort = false)
    (hfatal : (¬ (c.status = TransferStatus.completed) ∧
      ¬ (c.status = TransferStatus.timedOut)) ∨ c.actual_length = 0) :
    transfer_complete s c = abort_transfers (free_transfer s c.tid) ∧
    (transfer_complete s c).sinkWriteAttempts = s.sinkWriteAttempts ∧
    (transfer_complete s c).total_bytes_transferred = s.total_bytes_transferred ∧
    (transfer_complete s c).submissions = s.submissions ∧
    (transfer_complete s c).abort = true ∧
    (transfer_complete s c).freedTids = s.freedTids ++ [c.tid] := by
  have h := transfer_complete_of_fatal c hab hfatal
  refine ⟨h, ?_, ?_, ?_, ?_, ?_⟩ <;>
    rw [h] <;> simp [abort_transfers, free_transfer]

/-- The fatal completion used in the C6 witness. -/
def w6c : Completion := ⟨0, TransferStatus.error, 0, true, true⟩

/-- Witness for C6 at a concrete mid-stream pool and an "error"/0-byte
completion. -/
theorem C6_fatal_completion_aborts_witness :
    transfer_complete wPool w6c = abort_transfers (free_transfer wPool w6c.tid) ∧
    (transfer_complete wPool w6c).sinkWriteAttempts = wPool.sinkWriteAttempts ∧
    (transfer_complete wPool w6c).total_bytes_transferred = wPool.total_bytes_transferred ∧
    (transfer_complete wPool w6c).submissions = wPool.submissions ∧
    (transfer_complete wPool w6c).abort = true ∧
    (transfer_complete wPool w6c).freedTids = wPool.freedTids ++ [w6c.tid] :=
  C6_fatal_completion_aborts wPool w6c (by decide) (by decide)

/-- One signal delivery below the escalation threshold. -/
theorem runEvents_signal_cons (s : CState) (es : List Event)
    (hrun : ¬ (s.submitted_transfers = 0)) (hlt : s.num_signals + 1 < 5) :
    runEvents s (Event.signal :: es) =
      runEvents (abort_transfers { s with num_signals := s.num_signals + 1 }) es := by
  simp only [runEvents, step, handle_signalfd]
  rw [if_neg hrun, if_neg (by omega)]

/-- The escalated (fifth) signal delivery. -/
theorem runEvents_signal_exit (s : CState) (es : List Event)
    (hrun : ¬ (s.submitted_transfers = 0)) (hge : 5 ≤ s.num_signals + 1) :
    runEvents s (Event.signal :: es) = RunResult.forcedExit (-1) := by
  simp only [runEvents, step, handle_signalfd]
  rw [if_neg hrun, if_pos hge]

/-- Composition of the event loop over an event-list split. -/
theorem runEvents_append (es1 : List Event) :
    ∀ (s s1 : CState) (es2 : List Event),
      runEvents s es1 = RunResult.running s1 →
      runEvents s (es1 ++ es2) = runEvents s1 es2 := by
  induction es1 with
  | nil =>
    intro s s1 es2 h
    by_cases hz : s.submitted_transfers = 0
    · simp [runEvents, hz] at h
    · simp only [runEvents, if_neg hz] at h
      cases h
      simp
  | cons e es ih =>
    intro s s1 es2 h
    by_cases hz : s.submitted_transfers = 0
    · simp [runEvents, hz] at h
    · simp only [List.cons_append, runEvents, if_neg hz] at h ⊢
      cases hst : step s e with
      | inl s2 =>
        rw [hst] at h
        exact ih s2 s1 es2 h
      | inr code =>
        rw [hst] at h
        cases h

/-- Iterating below-threshold signal deliveries: the count advances, the
pool is untouched, the latch is set and cancellation of every outstanding
transfer is requested from the first delivery on. -/
theorem runEvents_signal_iterate :
    ∀ (k : Nat) (s : CState), ¬ (s.submitted_transfers = 0) →
      s.num_signals + k < 5 →
      ∃ s1, runEvents s (List.replicate k Event.signal) = RunResult.running s1 ∧
        s1.num_signals = s.num_signals + k ∧
        s1.submitted_transfers = s.submitted_transfers ∧
        s1.transfers = s.transfers ∧
        (s.abort = true → s1.abort = true) ∧
        (∀ t ∈ s.cancelRequests, t ∈ s1.cancelRequests) ∧
        (1 ≤ k → s1.abort = true ∧ ∀ t ∈ outstanding s, t ∈ s1.cancelRequests) := by
  intro k
  induction k with
  | zero =>
    intro s hrun _
    refine ⟨s, ?_, rfl, rfl, rfl, fun h => h, fun _ h => h, ?_⟩
    · simp [runEvents, hrun]
    · intro h
      omega
  | succ k ih =>
    intro s hrun hlt
    rw [List.replicate_succ,
      runEvents_signal_cons s (List.replicate k Event.signal) hrun (by omega)]
    have ha1 : (abort_transfers { s with num_signals := s.num_signals + 1 }).num_signals
        = s.num_signals + 1 := rfl
    have ha2 : (abort_transfers { s with num_signals := s.num_signals + 1 }).submitted_transfers
        = s.submitted_transfers := rfl
    have ha3 : (abort_transfers { s with num_signals := s.num_signals + 1 }).transfers
        = s.transfers := rfl
    have ha4 : (abort_transfers { s with num_signals := s.num_signals + 1 }).abort = true := rfl
    have ha5 : (abort_transfers { s with num_signals := s.num_signals + 1 }).cancelRequests
        = s.cancelRequests ++ outstanding s := rfl
    obtain ⟨s1, hrun1, hnum, hsubm, htr, habmono, hcmono, hk⟩ :=
      ih (abort_transfers { s with num_signals := s.num_signals + 1 })
        (by rw [ha2]; exact hrun) (by rw [ha1]; omega)
    refine ⟨s1, hrun1, ?_, ?_, ?_, ?_, ?_, ?_⟩
    · rw [hnum, ha1]
      omega
    · rw [hsubm, ha2]
    · rw [htr, ha3]
    · intro _
      exact habmono ha4
    · intro t ht
      exact hcmono t (by rw [ha5]; exact List.mem_append_left _ ht)
    · intro _
      refine ⟨habmono ha4, fun t ht => ?_⟩
      exact hcmono t (by rw [ha5]; exact List.mem_append_right _ ht)

/-- C9: from a mid-stream state with no prior deliveries, each of the
first four signal deliveries leaves the loop running with the abort latch
set, cancellation requested for every outstanding transfer and the pool
untouched, while the fifth delivery forces an immediate `exit(-1)` that
ignores all further events. -/
theorem C9_signal_escalation (s : CState)
    (h0 : s.num_signals = 0) (hrun : ¬ (s.submitted_transfers = 0)) :
    (∀ k, 1 ≤ k → k ≤ 4 →
      ∃ s1, runEvents s (List.replicate k Event.signal) = RunResult.running s1 ∧
        s1.abort = true ∧ s1.num_signals = k ∧
        s1.submitted_transfers = s.submitted_transfers ∧
        ∀ t ∈ outstanding s, t ∈ s1.cancelRequests) ∧
    ∀ rest, runEvents s (List.replicate 5 Event.signal ++ rest) =
      RunResult.forcedExit (-1) := by
  constructor
  · intro k hk1 hk4
    obtain ⟨s1, hrun1, hnum, hsubm, _, _, _, hk⟩ :=
      runEvents_signal_iterate k s hrun (by omega)
    obtain ⟨hab1, hcan1⟩ := hk hk1
    exact ⟨s1, hrun1, hab1, by omega, hsubm, hcan1⟩
  · intro rest
    obtain ⟨s4, hrun4, hnum, hsubm, _, _, _, _⟩ :=
      runEvents_signal_iterate 4 s hrun (by omega)
    have hsplit : List.replicate 5 Event.signal ++ rest =
        List.replicate 4 Event.signal ++ (Event.signal :: rest) := by
      rw [List.replicate_succ' 4 Event.signal]
      simp
    rw [hsplit,
      runEvents_append (List.replicate 4 Event.signal) s s4 (Event.signal :: rest) hrun4]
    exact runEvents_signal_exit s4 rest (by rw [hsubm]; exact hrun) (by omega)

/-- Witness for C9 at a concrete mid-stream pool. -/
theorem C9_signal_escalation_witness :
    ((∀ k, 1 ≤ k → k ≤ 4 →
      ∃ s1, runEvents wPool (List.replicate k Event.signal) = RunResult.running s1 ∧
        s1.abort = true ∧ s1.num_signals = k ∧
        s1.submitted_transfers = wPool.submitted_transfers ∧
        ∀ t ∈ outstanding wPool, t ∈ s1.cancelRequests) ∧
    ∀ rest, runEvents wPool (List.replicate 5 Event.signal ++ rest) =
      RunResult.forcedExit (-1)) :=
  C9_signal_escalation wPool (by decide) (by decide)

/-- C10: the accounting invariant `submitted_transfers = number of
non-NULL slots` is violated by the short-sink-write path.  In
`c10_cfg`/`c10_events`, the handler frees transfer 0 (slot cleared, count
2 → 1), falls through — the missing `return` — and calls
`libusb_submit_transfer` on the freed transfer; the submission fails, so
`free_transfer` runs a second time for the same transfer: the count drops
to 0 while transfer 1 still occupies a slot, and the event loop exits
with one transfer outstanding. -/
theorem C10_count_slot_mismatch :
    c10_events = [Event.usb ⟨0, TransferStatus.completed, 512, false, false⟩] ∧
    isFinished (do_stream c10_cfg c10_events) = true ∧
    (stateOf (do_stream c10_cfg c10_events)).freedTids = [0, 0] ∧
    (stateOf (do_stream c10_cfg c10_events)).submitted_transfers = 0 ∧
    outstanding (stateOf (do_stream c10_cfg c10_events)) = [1] ∧
    ¬ ((stateOf (do_stream c10_cfg c10_events)).submitted_transfers =
        ((outstanding (stateOf (do_stream c10_cfg c10_events))).length : Int)) := by
  decide

end Cannelloni
